import Mathlib

/-!
Verification of the Massachusetts federal grant tracker ETL pipeline
(`src/base_etl.py`, `src/exports_awards.py`, `src/exports_geo.py`).

The pandas DataFrame pipeline is shallowly embedded: a frame is a list of
rows plus column-presence flags; a cell is either null (NaN/NaT), a string,
a number (modelled as a rational: the float arithmetic of the pipeline is
additive bookkeeping on dollar amounts, faithfully represented over ℚ), or
a parsed date (modelled as an integer day number).

In-place pandas column assignment (`df[col] = ...`) mutates the caller's
frame.  Stages that assign columns in place are embedded so that the frame
state visible to the caller after the call is recoverable from the result:
for `convert_dates_and_amounts` the returned frame is the caller's frame
after the call (the source returns the very frame it mutated); for
`build_awardid` the embedding returns the pair (caller's frame after the
call, returned filtered copy).
-/

namespace GrantTracker

/-- A pandas cell: null (NaN/NaT), a string, a numeric value, or a parsed
date (timestamp modelled as an integer day number). -/
inductive Cell where
  | null : Cell
  | str (s : String) : Cell
  | num (q : ℚ) : Cell
  | date (d : Int) : Cell
deriving DecidableEq

/-- Drops leading whitespace characters from a character list. -/
def dropLeadingWs : List Char → List Char
  | [] => []
  | c :: cs => if c.isWhitespace then dropLeadingWs cs else c :: cs

/-- Models Python's `str.strip()` / pandas `.str.strip()`: removes
leading and trailing whitespace. -/
def pyStrip (s : String) : String :=
  String.mk ((dropLeadingWs ((dropLeadingWs s.data).reverse)).reverse)

/-- Models `.astype(str)` on one cell.  pandas stringifies a missing value
(NaN) to the literal string "nan" — it does not stay null. -/
def astypeStr : Cell → String
  | Cell.null => "nan"
  | Cell.str s => s
  | Cell.num q => toString q
  | Cell.date d => toString d

/-- Accumulates decimal digits; any non-digit character fails the parse. -/
def parseNatGo : List Char → Nat → Option Nat
  | [], acc => some acc
  | c :: cs, acc =>
      if c.isDigit then parseNatGo cs (acc * 10 + (c.toNat - 48)) else none

/-- A plain executable integer parser (optional leading minus followed by
decimal digits); stands in for the library parsers, which coerce
anything unparseable rather than raise. -/
def parseIntStr (s : String) : Option Int :=
  match s.data with
  | [] => none
  | '-' :: cs =>
      if cs.isEmpty then none else (parseNatGo cs 0).map (fun n => -(n : Int))
  | l => (parseNatGo l 0).map (fun n => (n : Int))

/-- Models one cell under `pd.to_numeric(..., errors="coerce")`: numbers
pass through, numeric strings parse (integer strings suffice for this
model), everything else coerces to missing — never raises. -/
def toNumeric : Cell → Option ℚ
  | Cell.num q => some q
  | Cell.str s => (parseIntStr s).map (fun n => (n : ℚ))
  | _ => none

/-- Models one cell under `pd.to_datetime(..., errors="coerce")`: parsed
dates pass through, date strings parse (dates are modelled as integer day
numbers), everything else coerces to NaT — never raises. -/
def toDatetime : Cell → Option Int
  | Cell.date d => some d
  | Cell.str s => parseIntStr s
  | _ => none

/-- One row of the transaction frame: the columns the pipeline reads or
writes, plus `extra` for untouched descriptive columns.  The three derived
columns added by `build_snapshots` live here with inert defaults until the
pipeline writes them. -/
structure Row where
  assistance_award_unique_key : Cell := Cell.null
  award_id_fain : Cell := Cell.null
  award_id_uri : Cell := Cell.null
  award_id : Cell := Cell.null
  assistance_transaction_unique_key : Cell := Cell.null
  action_date : Cell := Cell.null
  federal_action_obligation : Cell := Cell.null
  total_outlayed_amount_for_overall_award : Cell := Cell.null
  recipient_county_name : Cell := Cell.null
  extra : List (String × Cell) := []
  awardid : String := ""
  cumulative_obligation : ℚ := 0
  is_deobligation_tx : Bool := false
  neg_date : Option Int := none
deriving DecidableEq

/-- A transaction frame: column-presence flags (schema) and the rows.  A
flag set to false means the whole column is absent from the source file;
the corresponding cell values in rows are then meaningless and unread. -/
structure Df where
  has_assistance_award_unique_key : Bool := true
  has_award_id_fain : Bool := true
  has_award_id_uri : Bool := true
  has_award_id : Bool := true
  has_assistance_transaction_unique_key : Bool := true
  has_action_date : Bool := true
  has_federal_action_obligation : Bool := true
  has_total_outlayed : Bool := true
  has_recipient_county_name : Bool := true
  rows : List Row := []
deriving DecidableEq

/-- The four award-level identifier candidates of `build_awardid`
(base_etl.py lines 13-18), in their fixed priority order. -/
inductive AwardCol where
  | aauk : AwardCol
  | fain : AwardCol
  | uri : AwardCol
  | aid : AwardCol
deriving DecidableEq

/-- Cell of one candidate column in one row. -/
def colCell : AwardCol → Row → Cell
  | AwardCol.aauk, r => r.assistance_award_unique_key
  | AwardCol.fain, r => r.award_id_fain
  | AwardCol.uri, r => r.award_id_uri
  | AwardCol.aid, r => r.award_id

/-- Presence flag of one candidate column. -/
def colPresent (df : Df) : AwardCol → Bool
  | AwardCol.aauk => df.has_assistance_award_unique_key
  | AwardCol.fain => df.has_award_id_fain
  | AwardCol.uri => df.has_award_id_uri
  | AwardCol.aid => df.has_award_id

/-- Models base_etl.py line 19: the candidate columns present in the
schema, in priority order. -/
def presentAwardCols (df : Df) : List AwardCol :=
  [AwardCol.aauk, AwardCol.fain, AwardCol.uri, AwardCol.aid].filter (colPresent df)

/-- Models base_etl.py lines 22-28 for one row: start from the first
present candidate `.astype(str)`; each later candidate replaces the value
only where the running value fails `notna() & (str.len() > 0)`.  After
`.astype(str)` no value is null (a NaN has become the string "nan"), so
the `notna()` conjunct is vacuous and only empty strings fall through.
The final `.fillna("")` is likewise vacuous; `.str.strip()` is `trim`. -/
def rowAwardId (first : AwardCol) (rest : List AwardCol) (r : Row) : String :=
  (rest.foldl
    (fun acc c => if acc.length > 0 then acc else astypeStr (colCell c r))
    (astypeStr (colCell first r))) |> pyStrip

/-- Embeds `build_awardid` (base_etl.py lines 11-40).  The column write
`df["awardid"] = ...` (line 28 or 37) mutates the caller's frame in
place; line 39 then rebinds the local name to a filtered copy.  The
result is the pair (caller's frame after the call, returned frame). -/
def build_awardid (df : Df) : Except String (Df × Df) :=
  match presentAwardCols df with
  | c :: cs =>
      let callerAfter : Df :=
        { df with rows := df.rows.map (fun r => { r with awardid := rowAwardId c cs r }) }
      Except.ok (callerAfter,
        { callerAfter with rows := callerAfter.rows.filter (fun r => r.awardid.length > 0) })
  | [] =>
      if df.has_assistance_transaction_unique_key then
        let callerAfter : Df :=
          { df with rows := df.rows.map (fun r =>
              { r with awardid := pyStrip (astypeStr r.assistance_transaction_unique_key) }) }
        Except.ok (callerAfter,
          { callerAfter with rows := callerAfter.rows.filter (fun r => r.awardid.length > 0) })
      else
        Except.error "No award or transaction identifier columns to build awardid."

/-- Embeds `convert_dates_and_amounts` (base_etl.py lines 42-66).  All
column assignments are in place, and the function returns the frame it
mutated: the first component of the result is both the returned frame and
the caller's frame after the call.  Dates and amounts are coerced (never
raising); a null amount is filled with 0.0; a missing outlay column is
created filled with 0.0 (so its presence flag is true afterwards).  In
the source the date coercion precedes the amount-column check; neither
raises on data values, so the embedding checks both columns up front. -/
def convert_dates_and_amounts (df : Df) : Except String (Df × String) :=
  if !df.has_action_date then
    Except.error "Expected action_date column (as in eda_final)."
  else if !df.has_federal_action_obligation then
    Except.error "Missing federal_action_obligation column (eda_final)."
  else
    let rows1 := df.rows.map (fun r =>
      { r with action_date :=
          match toDatetime r.action_date with
          | some d => Cell.date d
          | none => Cell.null })
    let rows2 := rows1.map (fun r =>
      { r with federal_action_obligation := Cell.num ((toNumeric r.federal_action_obligation).getD 0) })
    let rows3 :=
      if df.has_total_outlayed then
        rows2.map (fun r =>
          { r with total_outlayed_amount_for_overall_award :=
              Cell.num ((toNumeric r.total_outlayed_amount_for_overall_award).getD 0) })
      else
        rows2.map (fun r =>
          { r with total_outlayed_amount_for_overall_award := Cell.num 0 })
    Except.ok ({ df with rows := rows3, has_total_outlayed := true }, "action_date")

/-- Numeric view of the obligation column after conversion. -/
def amount (r : Row) : ℚ :=
  match r.federal_action_obligation with
  | Cell.num q => q
  | _ => 0

/-- Numeric view of the outlay column after conversion. -/
def outlayVal (r : Row) : ℚ :=
  match r.total_outlayed_amount_for_overall_award with
  | Cell.num q => q
  | _ => 0

/-- Date view of the date column after conversion (`none` is NaT). -/
def dateVal (r : Row) : Option Int :=
  match r.action_date with
  | Cell.date d => some d
  | _ => none

/-- Order on the date component of the sort key: `sort_values` puts NaT
last (the default `na_position`). -/
def dateLe : Option Int → Option Int → Bool
  | none, none => true
  | none, some _ => false
  | some _, none => true
  | some a, some b => decide (a ≤ b)

/-- The two-column sort key of base_etl.py line 69,
`sort_values(["awardid", datecol])`: awardid first, date second. -/
def rowKey (r : Row) : String × Option Int :=
  (r.awardid, dateVal r)

/-- Lexicographic order of the two-column sort.  pandas sorts multiple
columns with `np.lexsort`, which is a stable sort; the embedding uses
`List.insertionSort`, which is also stable, under this total preorder. -/
def keyLe (r s : Row) : Prop :=
  r.awardid < s.awardid ∨ (r.awardid = s.awardid ∧ dateLe (dateVal r) (dateVal s) = true)

instance : DecidableRel keyLe := fun r s => by
  unfold keyLe
  infer_instance

instance : IsTotal Row keyLe := by
  constructor
  intro a b
  rcases lt_trichotomy a.awardid b.awardid with h | h | h
  · exact Or.inl (Or.inl h)
  · rcases ha : dateVal a with _ | x <;> rcases hb : dateVal b with _ | y
    · exact Or.inl (Or.inr ⟨h, by simp [dateLe, ha, hb]⟩)
    · exact Or.inr (Or.inr ⟨h.symm, by simp [dateLe, ha, hb]⟩)
    · exact Or.inl (Or.inr ⟨h, by simp [dateLe, ha, hb]⟩)
    · rcases le_total x y with hxy | hxy
      · exact Or.inl (Or.inr ⟨h, by simp [dateLe, ha, hb, hxy]⟩)
      · exact Or.inr (Or.inr ⟨h.symm, by simp [dateLe, ha, hb, hxy]⟩)
  · exact Or.inr (Or.inl h)

theorem dateLe_trans {a b c : Option Int} (h1 : dateLe a b = true) (h2 : dateLe b c = true) :
    dateLe a c = true := by
  rcases a with _ | x <;> rcases b with _ | y <;> rcases c with _ | z <;>
    simp_all [dateLe]
  omega

instance : IsTrans Row keyLe := by
  constructor
  intro a b c hab hbc
  rcases hab with hab | ⟨hab, hab2⟩
  · rcases hbc with hbc | ⟨hbc, _⟩
    · exact Or.inl (hab.trans hbc)
    · exact Or.inl (hbc ▸ hab)
  · rcases hbc with hbc | ⟨hbc, hbc2⟩
    · exact Or.inl (hab ▸ hbc)
    · exact Or.inr ⟨hab.trans hbc, dateLe_trans hab2 hbc2⟩

/-- Sum of the obligation amounts of a list of rows. -/
def sumAmounts (l : List Row) : ℚ := (l.map amount).sum

/-- Models lines 72-77 of base_etl.py on the sorted frame:
`groupby("awardid")["federal_action_obligation"].cumsum()` gives each row
the sum of the amounts of the rows up to and including it (in frame
order) sharing its awardid; `is_deobligation_tx` flags a strictly
negative amount; `neg_date` is the date where the flag holds, NaT
elsewhere.  `acc` is the list of rows already passed. -/
def addDerived (acc : List Row) : List Row → List Row
  | [] => []
  | r :: rs =>
      { r with
        cumulative_obligation := sumAmounts ((acc ++ [r]).filter (fun x => x.awardid = r.awardid)),
        is_deobligation_tx := decide (amount r < 0),
        neg_date := if amount r < 0 then dateVal r else none } :: addDerived (acc ++ [r]) rs

/-- One row of `finalsnap` (base_etl.py lines 86-114): the per-award
aggregates. -/
structure Snap where
  awardid : String := ""
  final_cum_obligation : ℚ := 0
  any_negative : Bool := false
  total_negative_amount : ℚ := 0
  total_obligation_amount : ℚ := 0
  first_negative_date : Option Int := none
  total_outlayed_amount_for_overall_award : ℚ := 0
  gross_positive_obligation : ℚ := 0
deriving DecidableEq

/-- Minimum of a date column skipping nulls, as `groupby(...).min()` skips
NaT; `none` when no non-null value exists. -/
def minDate (l : List (Option Int)) : Option Int :=
  match l.filterMap id with
  | [] => none
  | x :: xs => some (xs.foldl min x)

/-- Aggregates of one award over the sorted, derived-column frame
(base_etl.py lines 78-114): `last` of the cumulative column, `any` of the
de-obligation flags, sum of the strictly negative amounts, total sum,
`min` of `neg_date`, `last` of the outlay column (`fillna(0.0)` after the
left merge makes the empty case 0), and the sum of the strictly positive
amounts (`fillna` 0 when the award has none). -/
def snapOf (sorted : List Row) (a : String) : Snap :=
  let txs := sorted.filter (fun r => r.awardid = a)
  { awardid := a
    final_cum_obligation := ((txs.map (fun r => r.cumulative_obligation)).getLast?).getD 0
    any_negative := txs.any (fun r => r.is_deobligation_tx)
    total_negative_amount := sumAmounts (txs.filter (fun r => amount r < 0))
    total_obligation_amount := sumAmounts txs
    first_negative_date := minDate (txs.map (fun r => r.neg_date))
    total_outlayed_amount_for_overall_award := ((txs.map outlayVal).getLast?).getD 0
    gross_positive_obligation := sumAmounts (txs.filter (fun r => 0 < amount r)) }

/-- Distinct awardids of the frame (`groupby("awardid")` group keys; the
key order of the snapshot table is immaterial to every property here). -/
def awardIds (rows : List Row) : List String :=
  (rows.map (fun r => r.awardid)).dedup

/-- Embeds `build_snapshots` (base_etl.py lines 68-116): sort by
(awardid, date) — a stable lexicographic sort — add the derived columns,
and build one aggregate row per award.  The source threads `datecol`
through as a parameter; it is always "action_date" here and the embedding
reads that column directly.  Line 69 sorts into a copy, so the caller's
frame is not mutated by this stage. -/
def build_snapshots (df : Df) : Df × List Snap :=
  let sorted := addDerived [] (List.insertionSort keyLe df.rows)
  ({ df with rows := sorted }, (awardIds sorted).map (snapOf sorted))

/-- One row of `m1` (base_etl.py lines 164-166): the snapshot row with the
three columns added by `classify_and_explain`. -/
structure MRow where
  snap : Snap
  label : String
  explanation : String
  pct_outlayed_of_pos : ℚ
deriving DecidableEq

/-- Rationale strings of the five branches (base_etl.py lines 130-146). -/
def rationaleOf : String → String
  | "RESCISSION" =>
      "Funds were disbursed and later clawed back, reducing the award to zero or below."
  | "CANCELLATION" =>
      "No funds were disbursed; the award's cumulative obligation dropped to zero."
  | "PARTIAL_RES_CUM_POS" =>
      "Funds were disbursed and some portion was clawed back, but the award remains positive."
  | "ADMIN_OR_PREPAY_ADJ" =>
      "No funds were disbursed; negative transactions occurred but the award remains positive."
  | _ => "No negative transactions observed for this award."

/-- Embeds the per-row classifier `classify_and_explain` (base_etl.py
lines 121-162): the guarded percent diagnostic, the two-level decision
tree on (final cumulative obligation, outlays, any-negative flag), and the
explanation string (Python's fixed-precision float formatting in the
f-string is abstracted as `toString` of the rational; nothing downstream
re-parses it). -/
def classify_and_explain (s : Snap) : MRow :=
  let outlays := s.total_outlayed_amount_for_overall_award
  let pctoutlayed : ℚ :=
    if 0 < s.gross_positive_obligation then outlays / s.gross_positive_obligation else 0
  let label : String :=
    if s.final_cum_obligation ≤ 0 then
      if 0 < outlays then "RESCISSION" else "CANCELLATION"
    else
      if s.any_negative ∧ 0 < outlays then "PARTIAL_RES_CUM_POS"
      else if s.any_negative ∧ outlays = 0 then "ADMIN_OR_PREPAY_ADJ"
      else "NO_DEOBLIGATION"
  { snap := s
    label := label
    explanation :=
      label ++ " | final_cum=" ++ toString s.final_cum_obligation ++
      ", outlays=" ++ toString outlays ++ " (" ++ toString pctoutlayed ++
      " of positives), total_neg=" ++ toString (abs s.total_negative_amount) ++
      ", first_neg=" ++ toString s.first_negative_date ++ ", " ++ rationaleOf label
    pct_outlayed_of_pos := pctoutlayed }

/-- Embeds `classify_awards` (base_etl.py lines 118-168): apply the row
classifier to every snapshot row (`finalsnap.apply(..., axis=1)`). -/
def classify_awards (finalsnap : List Snap) : List MRow :=
  finalsnap.map classify_and_explain

/-- Embeds `build_base` (base_etl.py lines 170-176) from the loaded raw
frame onward: identifier resolution, date/amount conversion, snapshots,
classification.  The frames flow linearly, so the in-place mutation of the
intermediate frames is not observable at this level. -/
def build_base (df : Df) : Except String (Df × List MRow × String) := do
  let (_, df1) ← build_awardid df
  let (df2, datecol) ← convert_dates_and_amounts df1
  let (df3, snaps) := build_snapshots df2
  Except.ok (df3, classify_awards snaps, datecol)

/-- One row of the county demographic lookup built by `load_dp05_county`
(exports_geo.py lines 5-72); the core only needs the join key and the
numeric fields. -/
structure LookupRow where
  county_fips : String := ""
  county_name : String := ""
  population_total : Option ℚ := none
  pct_minority : Option ℚ := none
  pct_black : Option ℚ := none
  pct_hispanic : Option ℚ := none
  pct_asian : Option ℚ := none
deriving DecidableEq

/-- One row of `geo_aggregation` (exports_geo.py lines 138-151).  The
demographic fields are null for a county the lookup does not cover; the
two per-capita ratios are null when the population is null (float NaN
propagation) or zero (float division by zero, immaterial to any claim
here). -/
structure GeoRow where
  recipient_county_name : String
  deobligated_amount_usd : ℚ
  awards_with_any_cut : Nat
  county_fips : Option String
  county_name : Option String
  population_total : Option ℚ
  deob_dollars_per_capita : Option ℚ
  cuts_per_10k_residents : Option ℚ
  pct_minority : Option ℚ
  pct_black : Option ℚ
  pct_hispanic : Option ℚ
  pct_asian : Option ℚ
deriving DecidableEq

/-- One output row for county `c` with its de-obligated dollars and award
count, joined against an optional matching lookup row (left-join miss
gives null demographics). -/
def mkGeoRow (c : String) (dollars : ℚ) (cuts : Nat) : Option LookupRow → GeoRow
  | none =>
      { recipient_county_name := c, deobligated_amount_usd := dollars,
        awards_with_any_cut := cuts, county_fips := none, county_name := none,
        population_total := none, deob_dollars_per_capita := none,
        cuts_per_10k_residents := none, pct_minority := none, pct_black := none,
        pct_hispanic := none, pct_asian := none }
  | some lr =>
      { recipient_county_name := c, deobligated_amount_usd := dollars,
        awards_with_any_cut := cuts, county_fips := some lr.county_fips,
        county_name := some lr.county_name, population_total := lr.population_total,
        deob_dollars_per_capita :=
          lr.population_total.bind (fun p => if p = 0 then none else some (dollars / p)),
        cuts_per_10k_residents :=
          lr.population_total.bind (fun p => if p = 0 then none else some ((cuts : ℚ) / p * 10000)),
        pct_minority := lr.pct_minority, pct_black := lr.pct_black,
        pct_hispanic := lr.pct_hispanic, pct_asian := lr.pct_asian }

/-- Stripped county name of a row after exports_geo.py line 96 rewrote the
county column with `astype(str).str.strip()`. -/
def countyOf (r : Row) : String := pyStrip (astypeStr r.recipient_county_name)

/-- The output rows for one county `c`: its summed de-obligated dollars
and distinct-award cut count, left-joined against the lookup on the
stripped lookup county name — a county with no lookup match keeps one row
with null demographics, a county with several matches is duplicated per
match, exactly as a pandas left join behaves. -/
def geoRowsFor (dfneg : List Row) (county_lookup : List LookupRow) (c : String) :
    List GeoRow :=
  let negc := dfneg.filter (fun r => countyOf r = c)
  let dollars := ((negc.map (fun r => - amount r)).sum)
  let cuts := ((negc.map (fun r => r.awardid)).dedup).length
  match county_lookup.filter (fun lr => pyStrip lr.county_name = c) with
  | [] => [mkGeoRow c dollars cuts none]
  | ms => ms.map (fun lr => mkGeoRow c dollars cuts (some lr))

/-- Embeds `export_geo_aggregation` (exports_geo.py lines 75-156), CSV
write aside.  The negative transactions of the copied frame are grouped
by stripped county name; the dollars and distinct-award group-bys share
the same key set (both come from the negative rows), so their outer merge
is one row per such county, which `geoRowsFor` then left-joins against
the demographic lookup. -/
def export_geo_aggregation (df : Df) (county_lookup : List LookupRow) :
    Except String (List GeoRow) :=
  if !df.has_recipient_county_name then
    Except.error "df must have recipient_county_name for geo aggregation."
  else
    let dfneg := df.rows.filter (fun r => amount r < 0)
    Except.ok (((dfneg.map countyOf).dedup).flatMap (geoRowsFor dfneg county_lookup))

/-- Parameter list of `export_awards_master` (exports_awards.py line 5):
the function takes only the transaction frame. -/
def exportAwardsMasterParams : List String := ["df"]

/-- Free names the body of `export_awards_master` references beyond its
local bindings: its parameter, the four imported names, and the names
`m1` (line 39) and `datecol` (lines 43 and 57), which are bound nowhere
in scope. -/
def exportAwardsMasterFreeNames : List String :=
  ["df", "pd", "TRUMP_START", "AWARDS_MASTER_CSV", "ensure_directories", "m1", "datecol"]

/-- Module-level bindings of exports_awards.py: the import of pandas, the
three names imported from config, and the function itself. -/
def exportsAwardsModuleGlobals : List String :=
  ["pd", "TRUMP_START", "AWARDS_MASTER_CSV", "ensure_directories", "export_awards_master"]

/-- Argument count at the only call site,
scripts/run_all_exports.py: `export_awards_master(df, m1, date_col)`. -/
def exportAwardsMasterCallArgCount : Nat := 3

/-- Running sums of a list of amounts with start value `s`: the reference
semantics of a cumulative sum. -/
def cumsumFrom (s : ℚ) : List ℚ → List ℚ
  | [] => []
  | x :: xs => (s + x) :: cumsumFrom (s + x) xs

/-- Running sums of a list of amounts: `cumsum [100, -30, 50] = [100, 70, 120]`. -/
def cumsum : List ℚ → List ℚ := cumsumFrom 0

/-- Resets the three columns `build_snapshots` derives; two rows equal
under this map agree on every source column. -/
def stripDerived (r : Row) : Row :=
  { r with cumulative_obligation := 0, is_deobligation_tx := false, neg_date := none }

/-- Resets the column `build_awardid` derives; two rows equal under this
map agree on every other column. -/
def stripAwardid (r : Row) : Row := { r with awardid := "" }

/-- Resets the three columns `convert_dates_and_amounts` coerces in
place; two rows equal under this map agree on every other column. -/
def stripConverted (r : Row) : Row :=
  { r with action_date := Cell.null, federal_action_obligation := Cell.null,
           total_outlayed_amount_for_overall_award := Cell.null }

/-- A frame whose first identifier candidate is null while the second
carries a value. -/
def dfNullFirst : Df :=
  { rows := [{ assistance_award_unique_key := Cell.null, award_id_fain := Cell.str "FAIN123" }] }

/-- A frame whose first identifier candidate is the empty string while
the second carries a value. -/
def dfEmptyFirst : Df :=
  { rows := [{ assistance_award_unique_key := Cell.str "", award_id_fain := Cell.str "FAIN123" }] }

/-- A frame with an unparseable date and an unparseable amount. -/
def dfBadDate : Df :=
  { rows := [{ action_date := Cell.str "notadate", federal_action_obligation := Cell.str "x" }] }

/-- A one-row frame with a plain award identifier. -/
def dfIdOnly : Df :=
  { rows := [{ assistance_award_unique_key := Cell.str "A1" }] }

/-- The caller's frame after `build_awardid dfIdOnly`: the derived
awardid column has been written onto it. -/
def dfIdOnlyAfter : Df :=
  { rows := [{ assistance_award_unique_key := Cell.str "A1", awardid := "A1" }] }

/-- The caller's frame after `convert_dates_and_amounts dfBadDate`: the
unparseable date became NaT and the unparseable amount became 0. -/
def dfBadDateRes : Df :=
  { rows := [{ action_date := Cell.null, federal_action_obligation := Cell.num 0,
               total_outlayed_amount_for_overall_award := Cell.num 0 }] }

/-- Checks whether a pipeline stage succeeded. -/
def exceptOk {ε α : Type} : Except ε α → Bool
  | Except.ok _ => true
  | Except.error _ => false

/-- Two negative transactions in two counties, one county covered by the
demographic lookup and one not. -/
def rowsGeo : List Row :=
  [{ awardid := "A", federal_action_obligation := Cell.num (-10),
     recipient_county_name := Cell.str " ESSEX " },
   { awardid := "B", federal_action_obligation := Cell.num (-5),
     recipient_county_name := Cell.str "SUFFOLK" }]

/-- A one-county demographic lookup covering ESSEX only. -/
def lookupGeo : List LookupRow :=
  [{ county_fips := "25009", county_name := " ESSEX ", population_total := some 1000,
     pct_minority := some 20, pct_black := some 5, pct_hispanic := some 10,
     pct_asian := some 4 }]

/-!
Theorems.  Each claim of the specification is settled by one theorem
below; shared helper lemmas precede them.
-/

/-- C1: classification is total over snapshot rows and assigns exactly
one of the five labels by the decision tree evaluated in order — final
cumulative obligation at most 0 gives RESCISSION when outlays are
positive, else CANCELLATION; otherwise PARTIAL_RES_CUM_POS when some
negative transaction exists and outlays are positive, ADMIN_OR_PREPAY_ADJ
when some negative transaction exists and outlays are exactly 0, else
NO_DEOBLIGATION — and the label is a pure function of the triple
(final_cum_obligation, total_outlayed, any_negative): two snapshot rows
with identical triples receive identical labels. -/
theorem c1_classification_total_pure (s : Snap) :
    (classify_and_explain s).label =
      (if s.final_cum_obligation ≤ 0 then
        if 0 < s.total_outlayed_amount_for_overall_award then "RESCISSION" else "CANCELLATION"
      else
        if s.any_negative ∧ 0 < s.total_outlayed_amount_for_overall_award then
          "PARTIAL_RES_CUM_POS"
        else if s.any_negative ∧ s.total_outlayed_amount_for_overall_award = 0 then
          "ADMIN_OR_PREPAY_ADJ"
        else "NO_DEOBLIGATION") ∧
    (classify_and_explain s).label ∈
      ["CANCELLATION", "RESCISSION", "PARTIAL_RES_CUM_POS", "ADMIN_OR_PREPAY_ADJ",
       "NO_DEOBLIGATION"] ∧
    ∀ t : Snap,
      t.final_cum_obligation = s.final_cum_obligation →
      t.total_outlayed_amount_for_overall_award = s.total_outlayed_amount_for_overall_award →
      t.any_negative = s.any_negative →
      (classify_and_explain t).label = (classify_and_explain s).label := by
  refine ⟨rfl, ?_, ?_⟩
  · simp only [classify_and_explain]
    split_ifs <;> simp
  · intro t h1 h2 h3
    simp only [classify_and_explain, h1, h2, h3]

/-- Witness for C1 at two concrete snapshot rows sharing the triple
(5, 2, true) but differing elsewhere: both are labelled alike. -/
theorem c1_classification_total_pure_witness :
    (classify_and_explain
        { final_cum_obligation := 5, any_negative := true,
          total_outlayed_amount_for_overall_award := 2,
          gross_positive_obligation := 7 }).label =
      (classify_and_explain
        { awardid := "other", final_cum_obligation := 5, any_negative := true,
          total_outlayed_amount_for_overall_award := 2,
          total_negative_amount := -3 }).label :=
  (c1_classification_total_pure
    { awardid := "other", final_cum_obligation := 5, any_negative := true,
      total_outlayed_amount_for_overall_award := 2,
      total_negative_amount := -3 }).2.2
    { final_cum_obligation := 5, any_negative := true,
      total_outlayed_amount_for_overall_award := 2,
      gross_positive_obligation := 7 } (by decide) (by decide) (by decide)

/-- C2 evaluated at the failing input: a row whose first candidate column
is null does not fall through to the next candidate — `astype(str)` turns
the null into the non-empty string "nan" before the null/empty test runs,
so the row resolves to "nan" instead of "FAIN123".  The empty string, by
contrast, does fall through. -/
theorem c2_null_candidate_blocks_fallthrough :
    (build_awardid dfNullFirst).map (fun p => p.2.rows.map (fun (r : Row) => r.awardid)) =
      Except.ok ["nan"] ∧
    (build_awardid dfEmptyFirst).map (fun p => p.2.rows.map (fun (r : Row) => r.awardid)) =
      Except.ok ["FAIN123"] := by
  exact ⟨rfl, rfl⟩

/-- C5: the pipeline raises exactly on a missing required schema column,
never on data values.  `convert_dates_and_amounts` succeeds iff both the
date column and the obligation column are present, whatever the cell
values (unparseable cells are coerced); `build_awardid` succeeds iff some
award-identifier candidate or the transaction-identifier column is
present, whatever the cell values. -/
theorem c5_schema_violations_fatal (df : Df) :
    exceptOk (convert_dates_and_amounts df) =
      (df.has_action_date && df.has_federal_action_obligation) ∧
    exceptOk (build_awardid df) =
      (df.has_assistance_award_unique_key || df.has_award_id_fain || df.has_award_id_uri ||
        df.has_award_id || df.has_assistance_transaction_unique_key) := by
  constructor
  · rcases h1 : df.has_action_date <;> rcases h2 : df.has_federal_action_obligation <;>
      simp [convert_dates_and_amounts, h1, h2, exceptOk]
  · rcases df with ⟨a, b, c, d, e, f, g, h, i, rows⟩
    cases a <;> cases b <;> cases c <;> cases d <;> cases e <;>
      simp [build_awardid, presentAwardCols, colPresent, exceptOk, List.filter]

/-- C8: the claim evaluated against the source of exports_awards.py —
`export_awards_master` takes only the transaction frame as a parameter,
yet its body references the classified award table `m1` and the date
column name `datecol`, names bound neither in its parameter list nor at
module level; its only caller passes three arguments, which its one-entry
parameter list cannot accept. -/
theorem c8_export_awards_master_hidden_names :
    "m1" ∈ exportAwardsMasterFreeNames ∧
    "datecol" ∈ exportAwardsMasterFreeNames ∧
    "m1" ∉ exportAwardsMasterParams ∧
    "datecol" ∉ exportAwardsMasterParams ∧
    "m1" ∉ exportsAwardsModuleGlobals ∧
    "datecol" ∉ exportsAwardsModuleGlobals ∧
    exportAwardsMasterCallArgCount ≠ exportAwardsMasterParams.length := by
  decide

theorem dateLe_refl (d : Option Int) : dateLe d d = true := by
  rcases d with _ | x <;> simp [dateLe]

theorem keyLe_of_rowKey_eq {a b : Row} (h : rowKey a = rowKey b) : keyLe a b := by
  unfold rowKey at h
  rw [Prod.mk.injEq] at h
  exact Or.inr ⟨h.1, h.2 ▸ dateLe_refl _⟩

theorem filter_orderedInsert_keep (P : Row → Bool) (a : Row) (s : List Row)
    (hPa : P a = true) (h : ∀ b : Row, ¬ keyLe a b → P b = false) :
    (List.orderedInsert keyLe a s).filter P = a :: s.filter P := by
  induction s with
  | nil => simp [List.orderedInsert, hPa]
  | cons b t ih =>
      by_cases hle : keyLe a b
      · simp [List.orderedInsert, hle, List.filter_cons, hPa]
      · simp only [List.orderedInsert, if_neg hle, List.filter_cons, h b hle, ih,
          Bool.false_eq_true, if_false]

theorem filter_orderedInsert_drop (P : Row → Bool) (a : Row) (s : List Row)
    (hPa : P a = false) :
    (List.orderedInsert keyLe a s).filter P = s.filter P := by
  induction s with
  | nil => simp [List.orderedInsert, hPa]
  | cons b t ih =>
      by_cases hle : keyLe a b
      · simp [List.orderedInsert, hle, List.filter_cons, hPa]
      · simp only [List.orderedInsert, if_neg hle, List.filter_cons, ih]

theorem filter_insertionSort_stable (P : Row → Bool)
    (h : ∀ a b : Row, P a = true → ¬ keyLe a b → P b = false) :
    ∀ l : List Row, (List.insertionSort keyLe l).filter P = l.filter P := by
  intro l
  induction l with
  | nil => rfl
  | cons a t ih =>
      show (List.orderedInsert keyLe a (List.insertionSort keyLe t)).filter P = _
      cases hPa : P a with
      | true =>
          rw [filter_orderedInsert_keep P a _ hPa (fun b => h a b hPa), ih]
          simp [List.filter_cons, hPa]
      | false =>
          rw [filter_orderedInsert_drop P a _ hPa, ih]
          simp [List.filter_cons, hPa]

/-- C3: `build_snapshots` processes each award's transactions in
(awardid, transaction date) order produced by a stable sort — the
embedding of `sort_values(["awardid", datecol])`, which pandas performs
with the stable `np.lexsort` — so the sorted frame over which the
cumulative sums and last-value aggregates are computed (first conjunct)
is sorted under the two-column key (second conjunct) and, for every sort
key value, rows with that exact key — in particular two rows of the same
award with equal dates — keep their relative input order (third
conjunct). -/
theorem c3_sort_is_stable (df : Df) (k : String × Option Int) :
    (build_snapshots df).1.rows = addDerived [] (List.insertionSort keyLe df.rows) ∧
    List.Sorted keyLe (List.insertionSort keyLe df.rows) ∧
    (List.insertionSort keyLe df.rows).filter (fun r => rowKey r = k) =
      df.rows.filter (fun r => rowKey r = k) := by
  refine ⟨rfl, List.sorted_insertionSort keyLe df.rows, ?_⟩
  apply filter_insertionSort_stable
  intro a b hPa hnle
  simp only [decide_eq_true_eq] at hPa
  simp only [decide_eq_false_iff_not]
  intro hkb
  exact hnle (keyLe_of_rowKey_eq (by rw [hPa, hkb]))

theorem addDerived_map_strip : ∀ (rs acc : List Row),
    (addDerived acc rs).map stripDerived = rs.map stripDerived := by
  intro rs
  induction rs with
  | nil => intro acc; rfl
  | cons r t ih =>
      intro acc
      simp only [addDerived, List.map_cons, ih]
      rfl

theorem exists_strip_mem {l1 l2 : List Row}
    (h : l1.map stripDerived = l2.map stripDerived) {r : Row} (hr : r ∈ l1) :
    ∃ r2 ∈ l2, stripDerived r2 = stripDerived r := by
  have hmem : stripDerived r ∈ l2.map stripDerived := by
    rw [← h]
    exact List.mem_map_of_mem _ hr
  rcases List.mem_map.mp hmem with ⟨r2, hr2, he⟩
  exact ⟨r2, hr2, he⟩

theorem stripDerived_awardid (r : Row) : (stripDerived r).awardid = r.awardid := rfl

theorem stripDerived_amount (r : Row) : amount (stripDerived r) = amount r := rfl

theorem stripDerived_outlayVal (r : Row) : outlayVal (stripDerived r) = outlayVal r := rfl

theorem mem_addDerived_flag : ∀ (rs acc : List Row) (r : Row),
    r ∈ addDerived acc rs → r.is_deobligation_tx = decide (amount r < 0) := by
  intro rs
  induction rs with
  | nil =>
      intro acc r h
      simp [addDerived] at h
  | cons b t ih =>
      intro acc r h
      rcases List.mem_cons.mp h with he | ht
      · subst he; rfl
      · exact ih _ r ht

theorem sumAmounts_append (l1 l2 : List Row) :
    sumAmounts (l1 ++ l2) = sumAmounts l1 + sumAmounts l2 := by
  simp [sumAmounts]

theorem addDerived_cum_filter (a : String) : ∀ (rs acc : List Row),
    ((addDerived acc rs).filter (fun r => r.awardid = a)).map
        (fun r => r.cumulative_obligation) =
      cumsumFrom (sumAmounts (acc.filter (fun r => r.awardid = a)))
        ((rs.filter (fun r => r.awardid = a)).map amount) := by
  intro rs
  induction rs with
  | nil => intro acc; rfl
  | cons r t ih =>
      intro acc
      by_cases hr : r.awardid = a
      · simp [addDerived, List.filter_cons, hr, ih, List.filter_append, sumAmounts_append,
          sumAmounts, cumsumFrom]
      · simp [addDerived, List.filter_cons, hr, ih, List.filter_append, sumAmounts_append,
          sumAmounts]

theorem cumsumFrom_getLast : ∀ (l : List ℚ) (s : ℚ),
    ((cumsumFrom s l).getLast?).getD s = s + l.sum := by
  intro l
  induction l with
  | nil => intro s; simp [cumsumFrom]
  | cons x t ih =>
      intro s
      rw [cumsumFrom, ← List.getLastD_eq_getLast?, List.getLastD_cons,
        List.getLastD_eq_getLast?, ih, List.sum_cons]
      ring

theorem sum_nonpos_of_all {l : List ℚ} (h : ∀ x ∈ l, x ≤ 0) : l.sum ≤ 0 := by
  induction l with
  | nil => simp
  | cons x t ih =>
      rw [List.sum_cons]
      exact add_nonpos (h x (List.mem_cons_self x t)) (ih fun y hy => h y (List.mem_cons_of_mem x hy))

theorem sum_nonneg_of_all {l : List ℚ} (h : ∀ x ∈ l, 0 ≤ x) : 0 ≤ l.sum := by
  induction l with
  | nil => simp
  | cons x t ih =>
      rw [List.sum_cons]
      exact add_nonneg (h x (List.mem_cons_self x t)) (ih fun y hy => h y (List.mem_cons_of_mem x hy))

theorem any_negative_characterization (rows : List Row) (a : String) :
    (snapOf (addDerived [] (List.insertionSort keyLe rows)) a).any_negative = true ↔
      ∃ r ∈ rows, r.awardid = a ∧ amount r < 0 := by
  have hperm := List.perm_insertionSort keyLe rows
  have hstrip := addDerived_map_strip (List.insertionSort keyLe rows) []
  constructor
  · intro h
    simp only [snapOf, List.any_eq_true] at h
    rcases h with ⟨r, hrmem, hflag⟩
    rcases List.mem_filter.mp hrmem with ⟨hrsort, hra⟩
    rw [decide_eq_true_eq] at hra
    have hneg : amount r < 0 := by
      have := mem_addDerived_flag _ _ r hrsort
      rw [this, decide_eq_true_eq] at hflag
      exact hflag
    rcases exists_strip_mem hstrip hrsort with ⟨r2, hr2, he⟩
    refine ⟨r2, hperm.mem_iff.mp hr2, ?_, ?_⟩
    · rw [← stripDerived_awardid r2, he, stripDerived_awardid, hra]
    · rw [← stripDerived_amount r2, he, stripDerived_amount]
      exact hneg
  · rintro ⟨r, hr, ha, hneg⟩
    have hrs : r ∈ List.insertionSort keyLe rows := hperm.mem_iff.mpr hr
    rcases exists_strip_mem hstrip.symm hrs with ⟨r2, hr2, he⟩
    have ha2 : r2.awardid = a := by
      rw [← stripDerived_awardid r2, he, stripDerived_awardid, ha]
    have hneg2 : amount r2 < 0 := by
      rw [← stripDerived_amount r2, he, stripDerived_amount]
      exact hneg
    simp only [snapOf, List.any_eq_true]
    refine ⟨r2, List.mem_filter.mpr ⟨hr2, by simp [ha2]⟩, ?_⟩
    rw [mem_addDerived_flag _ _ r2 hr2, decide_eq_true_eq]
    exact hneg2

/-- C4: per award, the cumulative obligation column is the running sum of
the signed amounts in sorted order (with the spec's example
[100, -30, 50] giving [100, 70, 120]); the award's final cumulative
obligation — the `last` aggregate of that column — equals the plain sum
of all its amounts, zeros included; the negative bucket sums only the
strictly negative amounts and is at most 0, the gross-positive bucket
sums only the strictly positive amounts and is at least 0 (zeros land in
neither); and `any_negative` holds exactly when the award has a strictly
negative transaction among the input rows. -/
theorem c4_cumulative_sum_semantics (df : Df) (a : String) :
    (((addDerived [] (List.insertionSort keyLe df.rows)).filter
          (fun r => r.awardid = a)).map (fun r => r.cumulative_obligation) =
      cumsum (((List.insertionSort keyLe df.rows).filter (fun r => r.awardid = a)).map amount)) ∧
    cumsum [100, -30, 50] = [100, 70, 120] ∧
    (snapOf (addDerived [] (List.insertionSort keyLe df.rows)) a).total_negative_amount ≤ 0 ∧
    0 ≤ (snapOf (addDerived [] (List.insertionSort keyLe df.rows)) a).gross_positive_obligation ∧
    ((snapOf (addDerived [] (List.insertionSort keyLe df.rows)) a).any_negative = true ↔
      ∃ r ∈ df.rows, r.awardid = a ∧ amount r < 0) := by
  refine ⟨?_, by norm_num [cumsum, cumsumFrom], ?_, ?_,
    any_negative_characterization df.rows a⟩
  · have h := addDerived_cum_filter a (List.insertionSort keyLe df.rows) []
    simpa [cumsum, sumAmounts] using h
  · simp only [snapOf]
    apply sum_nonpos_of_all
    intro x hx
    rcases List.mem_map.mp hx with ⟨r, hr, he⟩
    rcases List.mem_filter.mp hr with ⟨_, hneg⟩
    rw [decide_eq_true_eq] at hneg
    rw [← he]
    exact le_of_lt hneg
  · simp only [snapOf]
    apply sum_nonneg_of_all
    intro x hx
    rcases List.mem_map.mp hx with ⟨r, hr, he⟩
    rcases List.mem_filter.mp hr with ⟨_, hpos⟩
    rw [decide_eq_true_eq] at hpos
    rw [← he]
    exact le_of_lt hpos

theorem getLastD_zero_of_all {l : List ℚ} (h : ∀ x ∈ l, x = 0) : (l.getLast?).getD 0 = 0 := by
  cases hl : l.getLast? with
  | none => rfl
  | some q =>
      have hq := List.mem_of_getLast?_eq_some hl
      simp [h q hq]

theorem outlay_transfer (rows : List Row) {r : Row}
    (hr : r ∈ addDerived [] (List.insertionSort keyLe rows)) :
    ∃ r2 ∈ rows, outlayVal r2 = outlayVal r ∧ amount r2 = amount r := by
  rcases exists_strip_mem (addDerived_map_strip (List.insertionSort keyLe rows) []) hr
    with ⟨r2, hr2, he⟩
  refine ⟨r2, (List.perm_insertionSort keyLe rows).mem_iff.mp hr2, ?_, ?_⟩
  · rw [← stripDerived_outlayVal r2, he, stripDerived_outlayVal]
  · rw [← stripDerived_amount r2, he, stripDerived_amount]

theorem snap_outlay_zero (rows : List Row) (a : String)
    (h : ∀ r ∈ rows, outlayVal r = 0) :
    (snapOf (addDerived [] (List.insertionSort keyLe rows))
        a).total_outlayed_amount_for_overall_award = 0 := by
  simp only [snapOf]
  apply getLastD_zero_of_all
  intro x hx
  rcases List.mem_map.mp hx with ⟨r, hr, he⟩
  rcases List.mem_filter.mp hr with ⟨hrs, _⟩
  rcases outlay_transfer rows hrs with ⟨r2, hmem, ho, _⟩
  rw [← he, ← ho]
  exact h r2 hmem

theorem snap_grosspos_zero (rows : List Row) (a : String)
    (h : ∀ r ∈ rows, amount r ≤ 0) :
    (snapOf (addDerived [] (List.insertionSort keyLe rows)) a).gross_positive_obligation = 0 := by
  simp only [snapOf]
  have hnil :
      ((addDerived [] (List.insertionSort keyLe rows)).filter (fun r => r.awardid = a)).filter
          (fun r => 0 < amount r) = [] := by
    rw [List.filter_eq_nil_iff]
    intro r hr
    rcases List.mem_filter.mp hr with ⟨hrs, _⟩
    rcases outlay_transfer rows hrs with ⟨r2, hmem, _, ha⟩
    simp only [decide_eq_true_eq]
    rw [← ha]
    exact not_lt.mpr (h r2 hmem)
  rw [hnil]
  rfl

theorem label_of_outlay_zero (s : Snap)
    (h : s.total_outlayed_amount_for_overall_award = 0) :
    (classify_and_explain s).label = "CANCELLATION" ∨
    (classify_and_explain s).label = "ADMIN_OR_PREPAY_ADJ" ∨
    (classify_and_explain s).label = "NO_DEOBLIGATION" := by
  simp only [classify_and_explain, h]
  by_cases h1 : s.final_cum_obligation ≤ 0
  · left
    simp [h1]
  · by_cases h2 : s.any_negative
    · right; left
      simp [h1, h2]
    · right; right
      simp [h1, h2]

/-- C9: when the outlay column is absent from the schema,
`convert_dates_and_amounts` does not raise — it creates the column filled
with 0.0 on every row — and so every downstream award snapshot carries a
total outlayed amount of 0 and is classified CANCELLATION,
ADMIN_OR_PREPAY_ADJ, or NO_DEOBLIGATION only (RESCISSION and
PARTIAL_RES_CUM_POS are unreachable in that mode). -/
theorem c9_missing_outlay_column (rows : List Row) (b1 b2 b3 b4 b5 b6 : Bool) :
    ∃ res : Df,
      convert_dates_and_amounts
          { has_assistance_award_unique_key := b1, has_award_id_fain := b2,
            has_award_id_uri := b3, has_award_id := b4,
            has_assistance_transaction_unique_key := b5, has_action_date := true,
            has_federal_action_obligation := true, has_total_outlayed := false,
            has_recipient_county_name := b6, rows := rows } =
        Except.ok (res, "action_date") ∧
      (res.rows.all fun r =>
        decide (r.total_outlayed_amount_for_overall_award = Cell.num 0)) = true ∧
      ((build_snapshots res).2.all fun s =>
        decide (s.total_outlayed_amount_for_overall_award = 0)) = true ∧
      ((classify_awards (build_snapshots res).2).all fun m =>
        decide (m.label = "CANCELLATION" ∨ m.label = "ADMIN_OR_PREPAY_ADJ" ∨
          m.label = "NO_DEOBLIGATION")) = true := by
  refine ⟨_, rfl, ?_, ?_, ?_⟩
  · simp [List.all_eq_true, List.mem_map]
  · simp only [Bool.false_eq_true, if_false, build_snapshots, List.all_eq_true,
      decide_eq_true_eq, List.mem_map]
    rintro s ⟨a, _, rfl⟩
    apply snap_outlay_zero
    simp only [List.mem_map]
    rintro r ⟨r0, _, rfl⟩
    rfl
  · simp only [Bool.false_eq_true, if_false, classify_awards, build_snapshots,
      List.all_eq_true, decide_eq_true_eq, List.mem_map]
    rintro m ⟨s, ⟨a, _, rfl⟩, rfl⟩
    apply label_of_outlay_zero
    apply snap_outlay_zero
    simp only [List.mem_map]
    rintro r ⟨r0, _, rfl⟩
    rfl

/-- C10: the percent-outlaid diagnostic divides only under the guard
that the gross positive obligation is strictly positive and is 0.0
otherwise; in particular an award none of whose transactions has a
strictly positive amount has gross positive obligation 0 and percent
0. -/
theorem c10_pct_guarded (rows : List Row) (a : String)
    (h : ∀ r ∈ rows, amount r ≤ 0) :
    (∀ s : Snap, (classify_and_explain s).pct_outlayed_of_pos =
      if 0 < s.gross_positive_obligation then
        s.total_outlayed_amount_for_overall_award / s.gross_positive_obligation
      else 0) ∧
    (snapOf (addDerived [] (List.insertionSort keyLe rows)) a).gross_positive_obligation = 0 ∧
    (classify_and_explain
      (snapOf (addDerived [] (List.insertionSort keyLe rows)) a)).pct_outlayed_of_pos = 0 := by
  refine ⟨fun s => rfl, snap_grosspos_zero rows a h, ?_⟩
  simp only [classify_and_explain, snap_grosspos_zero rows a h]
  norm_num

/-- Witness for C10 at a one-transaction award whose only amount is -5:
its gross positive obligation is 0 and its percent diagnostic is 0. -/
theorem c10_pct_guarded_witness :
    (snapOf (addDerived [] (List.insertionSort keyLe
        [{ awardid := "A", federal_action_obligation := Cell.num (-5) }]))
      "A").gross_positive_obligation = 0 ∧
    (classify_and_explain (snapOf (addDerived [] (List.insertionSort keyLe
        [{ awardid := "A", federal_action_obligation := Cell.num (-5) }]))
      "A")).pct_outlayed_of_pos = 0 :=
  ⟨(c10_pct_guarded [{ awardid := "A", federal_action_obligation := Cell.num (-5) }] "A"
      (by decide)).2.1,
   (c10_pct_guarded [{ awardid := "A", federal_action_obligation := Cell.num (-5) }] "A"
      (by decide)).2.2⟩

theorem map_stripAwardid_set (f : Row → String) (l : List Row) :
    (l.map (fun r => { r with awardid := f r })).map stripAwardid = l.map stripAwardid := by
  induction l with
  | nil => rfl
  | cons r t ih =>
      simp only [List.map_cons, ih]
      rfl

theorem map_stripConverted_set_date (f : Row → Cell) (l : List Row) :
    (l.map (fun r => { r with action_date := f r })).map stripConverted =
      l.map stripConverted := by
  induction l with
  | nil => rfl
  | cons r t ih =>
      simp only [List.map_cons, ih]
      rfl

theorem map_stripConverted_set_fao (f : Row → Cell) (l : List Row) :
    (l.map (fun r => { r with federal_action_obligation := f r })).map stripConverted =
      l.map stripConverted := by
  induction l with
  | nil => rfl
  | cons r t ih =>
      simp only [List.map_cons, ih]
      rfl

theorem map_stripConverted_set_outlay (f : Row → Cell) (l : List Row) :
    (l.map (fun r => { r with total_outlayed_amount_for_overall_award := f r })).map
        stripConverted = l.map stripConverted := by
  induction l with
  | nil => rfl
  | cons r t ih =>
      simp only [List.map_cons, ih]
      rfl

/-- C6 counterexample: `convert_dates_and_amounts` assigns the coerced
date, amount and outlay columns in place, so the caller's frame after the
call — which is exactly the frame the function returns — differs from the
frame that was passed in whenever a coercion changes a value.  At the
concrete frame whose date cell is the unparseable string "notadate", the
caller's table is changed by the call, refuting the claim that every
pre-existing column and row is left equal to its value before the
call. -/
theorem c6_counterexample_inplace_change :
    convert_dates_and_amounts dfBadDate = Except.ok (dfBadDateRes, "action_date") ∧
    dfBadDateRes ≠ dfBadDate := by
  exact ⟨rfl, by decide⟩

/-- C6 amended: the two stages mutate the frame they receive in place,
but only on the columns they derive or coerce.  `build_awardid` writes
the derived awardid column onto the caller's frame, leaving every other
column of every row, the row count, and the schema flags unchanged (the
row filtering happens on a separate copy that becomes the return value);
`convert_dates_and_amounts` returns the caller's mutated frame itself,
with only the date, amount and outlay columns rewritten and only the
outlay presence flag (now true) possibly changed. -/
theorem c6_amended_inplace_mutation :
    (∀ (df after res : Df), build_awardid df = Except.ok (after, res) →
      after.rows.map stripAwardid = df.rows.map stripAwardid ∧
      after.rows.length = df.rows.length ∧
      { after with rows := ([] : List Row) } = { df with rows := ([] : List Row) }) ∧
    (∀ (df res : Df) (dc : String), convert_dates_and_amounts df = Except.ok (res, dc) →
      dc = "action_date" ∧
      res.rows.map stripConverted = df.rows.map stripConverted ∧
      { res with rows := ([] : List Row), has_total_outlayed := true } =
        { df with rows := ([] : List Row), has_total_outlayed := true }) := by
  constructor
  · intro df after res h
    unfold build_awardid at h
    cases hp : presentAwardCols df with
    | cons c cs =>
        rw [hp] at h
        simp only [Except.ok.injEq, Prod.mk.injEq] at h
        obtain ⟨h1, _⟩ := h
        rw [← h1]
        exact ⟨map_stripAwardid_set _ df.rows, by simp, rfl⟩
    | nil =>
        rw [hp] at h
        by_cases ht : df.has_assistance_transaction_unique_key
        · rw [if_pos ht] at h
          simp only [Except.ok.injEq, Prod.mk.injEq] at h
          obtain ⟨h1, _⟩ := h
          rw [← h1]
          exact ⟨map_stripAwardid_set _ df.rows, by simp, rfl⟩
        · rw [if_neg ht] at h
          exact absurd h (by simp)
  · intro df res dc h
    unfold convert_dates_and_amounts at h
    cases hA : df.has_action_date with
    | false =>
        rw [hA] at h
        exact absurd h (by simp)
    | true =>
        rw [hA] at h
        cases hB : df.has_federal_action_obligation with
        | false =>
            rw [hB] at h
            exact absurd h (by simp)
        | true =>
            rw [hB] at h
            simp only [Bool.not_true, Bool.false_eq_true, if_false, Except.ok.injEq,
              Prod.mk.injEq] at h
            obtain ⟨h1, h2⟩ := h
            refine ⟨h2.symm, ?_, ?_⟩
            · rw [← h1]
              cases hC : df.has_total_outlayed with
              | true =>
                  exact (map_stripConverted_set_outlay _ _).trans
                    ((map_stripConverted_set_fao _ _).trans
                      (map_stripConverted_set_date _ df.rows))
              | false =>
                  exact (map_stripConverted_set_outlay _ _).trans
                    ((map_stripConverted_set_fao _ _).trans
                      (map_stripConverted_set_date _ df.rows))
            · rw [← h1]

/-- Witness for C6 amended at two concrete frames: `build_awardid` on a
one-row frame with identifier "A1" leaves everything but the awardid
column unchanged on the caller's frame, and `convert_dates_and_amounts`
on the unparseable frame leaves every column other than the three coerced
ones unchanged. -/
theorem c6_amended_inplace_mutation_witness :
    (dfIdOnlyAfter.rows.map stripAwardid = dfIdOnly.rows.map stripAwardid ∧
     dfIdOnlyAfter.rows.length = dfIdOnly.rows.length ∧
     { dfIdOnlyAfter with rows := ([] : List Row) } = { dfIdOnly with rows := ([] : List Row) }) ∧
    ("action_date" = "action_date" ∧
     dfBadDateRes.rows.map stripConverted = dfBadDate.rows.map stripConverted ∧
     { dfBadDateRes with rows := ([] : List Row), has_total_outlayed := true } =
       { dfBadDate with rows := ([] : List Row), has_total_outlayed := true }) :=
  ⟨c6_amended_inplace_mutation.1 dfIdOnly dfIdOnlyAfter dfIdOnlyAfter rfl,
   c6_amended_inplace_mutation.2 dfBadDate dfBadDateRes "action_date" rfl⟩

theorem flatMap_length_ge {α β : Type} (l : List α) (f : α → List β)
    (h : ∀ a, 1 ≤ (f a).length) : l.length ≤ (l.flatMap f).length := by
  induction l with
  | nil => simp
  | cons a t ih =>
      simp only [List.flatMap_cons, List.length_append, List.length_cons]
      have := h a
      omega

theorem geoRowsFor_length (dfneg : List Row) (lookup : List LookupRow) (c : String) :
    1 ≤ (geoRowsFor dfneg lookup c).length := by
  simp only [geoRowsFor]
  cases hm : lookup.filter (fun lr => pyStrip lr.county_name = c) with
  | nil => simp
  | cons lr ls => simp

theorem geoRowsFor_spec (dfneg : List Row) (lookup : List LookupRow) (c : String) :
    ∃ g ∈ geoRowsFor dfneg lookup c,
      g.recipient_county_name = c ∧
      g.deobligated_amount_usd =
        (((dfneg.filter (fun r => countyOf r = c)).map (fun r => - amount r)).sum) ∧
      ((∀ lr ∈ lookup, pyStrip lr.county_name ≠ c) →
        g.population_total = none ∧ g.pct_minority = none ∧ g.pct_black = none ∧
        g.pct_hispanic = none ∧ g.pct_asian = none) := by
  simp only [geoRowsFor]
  cases hm : lookup.filter (fun lr => pyStrip lr.county_name = c) with
  | nil =>
      exact ⟨_, List.mem_singleton_self _, rfl, rfl, fun _ => ⟨rfl, rfl, rfl, rfl, rfl⟩⟩
  | cons lr ls =>
      refine ⟨mkGeoRow c _ _ (some lr), List.mem_map_of_mem _ (List.mem_cons_self lr ls),
        rfl, rfl, ?_⟩
      intro hnone
      exfalso
      have hlr : lr ∈ lookup.filter (fun x => pyStrip x.county_name = c) := by
        rw [hm]
        exact List.mem_cons_self lr ls
      rcases List.mem_filter.mp hlr with ⟨hmem, hstrip⟩
      rw [decide_eq_true_eq] at hstrip
      exact hnone lr hmem hstrip

/-- C7: the geo aggregation keeps left-outer-join semantics against the
demographic lookup.  When the county column is present, the export
succeeds, its row count is at least the number of distinct (stripped)
county names among the negative transactions, and every such county
contributes a row carrying its summed de-obligated dollars; a county
absent from the lookup keeps that dollar total while its population and
percentage fields are all null. -/
theorem c7_geo_left_outer_join (rows : List Row)
    (b1 b2 b3 b4 b5 b6 b7 b8 : Bool) (lookup : List LookupRow) :
    ∃ out : List GeoRow,
      export_geo_aggregation
          { has_assistance_award_unique_key := b1, has_award_id_fain := b2,
            has_award_id_uri := b3, has_award_id := b4,
            has_assistance_transaction_unique_key := b5, has_action_date := b6,
            has_federal_action_obligation := b7, has_total_outlayed := b8,
            has_recipient_county_name := true, rows := rows } lookup = Except.ok out ∧
      (((rows.filter (fun r => amount r < 0)).map countyOf).dedup).length ≤ out.length ∧
      ∀ c ∈ ((rows.filter (fun r => amount r < 0)).map countyOf).dedup,
        ∃ g ∈ out,
          g.recipient_county_name = c ∧
          g.deobligated_amount_usd =
            ((((rows.filter (fun r => amount r < 0)).filter (fun r => countyOf r = c)).map
                (fun r => - amount r)).sum) ∧
          ((∀ lr ∈ lookup, pyStrip lr.county_name ≠ c) →
            g.population_total = none ∧ g.pct_minority = none ∧ g.pct_black = none ∧
            g.pct_hispanic = none ∧ g.pct_asian = none) := by
  refine ⟨_, rfl, ?_, ?_⟩
  · exact flatMap_length_ge _ _ (geoRowsFor_length _ lookup)
  · intro c hc
    obtain ⟨g, hg, hprops⟩ := geoRowsFor_spec (rows.filter (fun r => amount r < 0)) lookup c
    exact ⟨g, List.mem_flatMap_of_mem hc hg, hprops⟩

/-- Witness for C7 at a concrete frame with negative transactions in
ESSEX and SUFFOLK and a lookup covering only ESSEX. -/
theorem c7_geo_left_outer_join_witness :
    ∃ out : List GeoRow,
      export_geo_aggregation
          { has_assistance_award_unique_key := true, has_award_id_fain := true,
            has_award_id_uri := true, has_award_id := true,
            has_assistance_transaction_unique_key := true, has_action_date := true,
            has_federal_action_obligation := true, has_total_outlayed := true,
            has_recipient_county_name := true, rows := rowsGeo } lookupGeo = Except.ok out ∧
      (((rowsGeo.filter (fun r => amount r < 0)).map countyOf).dedup).length ≤ out.length ∧
      ∀ c ∈ ((rowsGeo.filter (fun r => amount r < 0)).map countyOf).dedup,
        ∃ g ∈ out,
          g.recipient_county_name = c ∧
          g.deobligated_amount_usd =
            ((((rowsGeo.filter (fun r => amount r < 0)).filter (fun r => countyOf r = c)).map
                (fun r => - amount r)).sum) ∧
          ((∀ lr ∈ lookupGeo, pyStrip lr.county_name ≠ c) →
            g.population_total = none ∧ g.pct_minority = none ∧ g.pct_black = none ∧
            g.pct_hispanic = none ∧ g.pct_asian = none) :=
  c7_geo_left_outer_join rowsGeo true true true true true true true true lookupGeo

end GrantTracker
